import Mathlib

/-!
# Verification of the ClaraVerse python backend core

Shallow embedding of the session/token authentication core
(`py_backend/auth/auth.py`, `py_backend/routes/auth_routes.py`), the
text-chunking engine and the similarity-search pipeline
(`py_backend/routes/vector_routes.py`), together with proofs settling the
frozen specification claims.

Conventions:
* Python strings are `List Char`; Python `str.rfind`, slicing and `strip`
  are embedded with Python's negative-index semantics.
* Timestamps are natural numbers (seconds); `datetime.utcnow()` becomes an
  explicit `now` parameter.
* The database rows (`auth.users`, `auth.sessions`, `auth.refresh_tokens`,
  `vectors.embeddings`) are lists inside a `Store` record; SQLAlchemy
  `query(...).filter(...).first()` becomes `List.find?` and
  `db.delete(row)` becomes `List.eraseP`.
* JWT token strings are modelled by the inductive `TokenStr`: the encoding
  of a signed payload is deterministic and injective (as HS256 `jwt.encode`
  is for a fixed secret), and any string not produced by the signer decodes
  as garbage.
-/

namespace ClaraVerse

/-! ## Chunking engine (`vector_routes.py`, `chunk_text`, lines 74-97) -/

/-- Python slice-index adjustment: a negative index counts from the end
(clamped below at 0); a non-negative index is clamped above at `n`. -/
def pyAdj (n : Nat) (i : Int) : Nat :=
  if i < 0 then ((n : Int) + i).toNat else min i.toNat n

/-- Python slice `s[a:b]` with full negative-index semantics. -/
def pySlice (s : List Char) (a b : Int) : List Char :=
  (s.take (pyAdj s.length b)).drop (pyAdj s.length a)

/-- Index of the last occurrence of `c` in a list, if any. -/
def lastIdxOf (c : Char) : List Char → Option Nat
  | [] => none
  | x :: xs =>
    match lastIdxOf c xs with
    | some i => some (i + 1)
    | none => if x = c then some 0 else none

/-- Python `s.rfind(c, a, b)`: highest index `i` with `a' ≤ i < b'` and
`s[i] = c` (after slice-index adjustment of `a`, `b`), else `-1`. -/
def pyRfind (s : List Char) (c : Char) (a b : Int) : Int :=
  let lo := pyAdj s.length a
  let hi := pyAdj s.length b
  match lastIdxOf c ((s.take hi).drop lo) with
  | some i => (lo : Int) + i
  | none => -1

/-- Python `s.strip()`: remove leading and trailing whitespace. -/
def pyStrip (s : List Char) : List Char :=
  ((s.dropWhile Char.isWhitespace).reverse.dropWhile Char.isWhitespace).reverse

/-- The cut position of one `chunk_text` loop iteration: `end = start +
chunk_size`, moved back to just after the rightmost `'.'` or newline in the
window whenever that break point lies after `start + chunk_size - overlap`
(only attempted while `end < len(text)`). Mirrors lines 80-89. -/
def chunkIterEnd (text : List Char) (chunkSize overlap start : Int) : Int :=
  let end0 := start + chunkSize
  if end0 < (text.length : Int) then
    let lastPeriod := pyRfind text '.' start end0
    let lastNewline := pyRfind text '\n' start end0
    let breakPoint := max lastPeriod lastNewline
    if breakPoint > start + chunkSize - overlap then breakPoint + 1 else end0
  else end0

/-- The `while start < len(text)` loop of `chunk_text`, with explicit fuel
(the Python source has no termination guard). Each iteration cuts
`text[start:end].strip()`, appends it when non-empty, and advances
`start` to `end - overlap`. Mirrors lines 76-97. -/
def chunkTextGo (text : List Char) (chunkSize overlap : Int) (fuel : Nat)
    (start : Int) (chunks : List (List Char)) : Option (List (List Char)) :=
  if start < (text.length : Int) then
    match fuel with
    | 0 => none
    | fuel' + 1 =>
      let e := chunkIterEnd text chunkSize overlap start
      let chunk := pyStrip (pySlice text start e)
      chunkTextGo text chunkSize overlap fuel' (e - overlap)
        (if chunk.isEmpty then chunks else chunks ++ [chunk])
  else some chunks

/-- Function `chunk_text(text, chunk_size, overlap)` run with the given fuel;
`some chunks` when the loop finishes within `fuel` iterations. -/
def chunk_text (text : List Char) (chunkSize overlap : Int) (fuel : Nat) :
    Option (List (List Char)) :=
  chunkTextGo text chunkSize overlap fuel 0 []

/-- The `chunk_text` loop terminates on this input: some amount of fuel
suffices. -/
def chunkTerminates (text : List Char) (chunkSize overlap : Int) : Prop :=
  ∃ fuel, (chunk_text text chunkSize overlap fuel).isSome

end ClaraVerse

namespace ClaraVerse

/-! ### Lemmas for chunking termination -/

/-- With `0 < chunk_size` and `2 * overlap ≤ chunk_size`, every loop
iteration advances the start position by at least one (in both the
raw-window branch and the break-point branch). -/
theorem chunkIterEnd_advance (text : List Char) (cs ov : Int)
    (hcs : 0 < cs) (hov : 2 * ov ≤ cs) (start : Int) :
    start + 1 ≤ chunkIterEnd text cs ov start - ov := by
  simp only [chunkIterEnd]
  split_ifs with h1 h2
  · omega
  · omega
  · omega

/-- Sufficient fuel for `chunkTextGo` when each step advances the start. -/
theorem chunkTextGo_isSome (text : List Char) (cs ov : Int)
    (hcs : 0 < cs) (hov : 2 * ov ≤ cs) :
    ∀ (fuel : Nat) (start : Int) (acc : List (List Char)),
      (text.length : Int) - start ≤ (fuel : Int) →
      (chunkTextGo text cs ov fuel start acc).isSome := by
  intro fuel
  induction fuel with
  | zero =>
    intro start acc h
    have hge : ¬ start < (text.length : Int) := by
      simp only [Nat.cast_zero] at h
      omega
    rw [chunkTextGo.eq_def]
    simp [hge]
  | succ f ih =>
    intro start acc h
    rw [chunkTextGo.eq_def]
    by_cases hlt : start < (text.length : Int)
    · simp only [hlt, if_true]
      apply ih
      have := chunkIterEnd_advance text cs ov hcs hov start
      push_cast at h ⊢
      omega
    · simp [hlt]

end ClaraVerse

namespace ClaraVerse

/-! ### Lemmas for the chunking non-termination counterexample.

On the 20-character text `"ab." ++ "x"*17` with `chunk_size = 10`,
`overlap = 9`, the loop start positions go `0 → -6 → -9 → -9 → ...`
(re-tracing CPython: `text.rfind('.', -6, 4)` searches `[14, 4)` and
returns `-1`, `-1 > -5` moves the cut to `0`, and `text[-6:0]` is empty). -/

/-- Unfolding of one loop iteration while `start < len(text)`. -/
theorem chunkTextGo_succ (text : List Char) (cs ov : Int) (f : Nat)
    (start : Int) (acc : List (List Char)) (h : start < (text.length : Int)) :
    chunkTextGo text cs ov (f + 1) start acc =
      chunkTextGo text cs ov f (chunkIterEnd text cs ov start - ov)
        (if (pyStrip (pySlice text start (chunkIterEnd text cs ov start))).isEmpty
         then acc
         else acc ++ [pyStrip (pySlice text start (chunkIterEnd text cs ov start))]) := by
  rw [chunkTextGo.eq_def]
  simp only [h, if_true]

/-- The loop exits as soon as `start` reaches the end of the text. -/
theorem chunkTextGo_done (text : List Char) (cs ov : Int) (f : Nat)
    (start : Int) (acc : List (List Char)) (h : ¬ start < (text.length : Int)) :
    chunkTextGo text cs ov f start acc = some acc := by
  rw [chunkTextGo.eq_def]
  simp only [h, if_false]

/-- The loop is out of fuel exactly when it has not exited. -/
theorem chunkTextGo_zero (text : List Char) (cs ov : Int)
    (start : Int) (acc : List (List Char)) (h : start < (text.length : Int)) :
    chunkTextGo text cs ov 0 start acc = none := by
  rw [chunkTextGo.eq_def]
  simp only [h, if_true]

/-- From start position `-9` the loop never finishes: the state repeats. -/
theorem chunkTextGo_fix_neg9 :
    ∀ (fuel : Nat) (acc : List (List Char)),
      chunkTextGo ("ab.".data ++ List.replicate 17 'x') 10 9 fuel (-9) acc = none := by
  intro fuel
  induction fuel with
  | zero =>
    intro acc
    exact chunkTextGo_zero _ _ _ _ _ (by decide)
  | succ f ih =>
    intro acc
    rw [chunkTextGo_succ _ _ _ _ _ _ (by decide)]
    rw [show chunkIterEnd ("ab.".data ++ List.replicate 17 'x') 10 9 (-9) = 0 from by decide]
    rw [show pyStrip (pySlice ("ab.".data ++ List.replicate 17 'x') (-9) 0) = ([] : List Char)
        from by decide]
    simp only [List.isEmpty_nil, if_true]
    rw [show (0 : Int) - 9 = -9 from by decide]
    exact ih acc

end ClaraVerse

namespace ClaraVerse

/-- C2 (amended). For every text, `chunk_text` terminates when
`0 < chunk_size` and `2 * overlap ≤ chunk_size`: the window start position
then strictly increases at every loop iteration, including iterations that
move the cut point back to a sentence terminator or newline.  (With merely
`overlap < chunk_size`, as the claim states it, the break-point branch can
move the start position backwards and the loop need not terminate.) -/
theorem chunk_text_terminates (text : List Char) (cs ov : Int)
    (hcs : 0 < cs) (hov : 2 * ov ≤ cs) : chunkTerminates text cs ov := by
  refine ⟨text.length, ?_⟩
  apply chunkTextGo_isSome text cs ov hcs hov
  omega

/-- Witness for `chunk_text_terminates` at the default parameters. -/
theorem chunk_text_terminates_witness :
    (0 : Int) < 1000 ∧ 2 * 200 ≤ (1000 : Int) ∧
      chunkTerminates (List.replicate 2500 'a') 1000 200 :=
  ⟨by norm_num, by norm_num,
    chunk_text_terminates (List.replicate 2500 'a') 1000 200 (by norm_num) (by norm_num)⟩

/-- The whole run of `chunk_text` on `"ab." ++ "x"*17` with
`chunk_size = 10 > overlap = 9` runs out of any amount of fuel. -/
theorem chunk_text_ab_run :
    ∀ fuel, chunk_text ("ab.".data ++ List.replicate 17 'x') 10 9 fuel = none := by
  intro fuel
  rcases fuel with _ | (_ | f)
  · exact chunkTextGo_zero _ _ _ _ _ (by decide)
  · unfold chunk_text
    rw [chunkTextGo_succ _ _ _ _ _ _ (by decide)]
    rw [show chunkIterEnd ("ab.".data ++ List.replicate 17 'x') 10 9 0 = 3 from by decide]
    rw [show pyStrip (pySlice ("ab.".data ++ List.replicate 17 'x') 0 3) = "ab.".data
        from by decide]
    rw [if_neg (by decide), show (3 : Int) - 9 = -6 from by decide]
    exact chunkTextGo_zero _ _ _ _ _ (by decide)
  · unfold chunk_text
    show chunkTextGo _ 10 9 (f + 1 + 1) 0 [] = none
    rw [chunkTextGo_succ _ _ _ _ _ _ (by decide)]
    rw [show chunkIterEnd ("ab.".data ++ List.replicate 17 'x') 10 9 0 = 3 from by decide]
    rw [show pyStrip (pySlice ("ab.".data ++ List.replicate 17 'x') 0 3) = "ab.".data
        from by decide]
    rw [if_neg (by decide), show (3 : Int) - 9 = -6 from by decide]
    rw [chunkTextGo_succ _ _ _ _ _ _ (by decide)]
    rw [show chunkIterEnd ("ab.".data ++ List.replicate 17 'x') 10 9 (-6) = 0 from by decide]
    rw [show pyStrip (pySlice ("ab.".data ++ List.replicate 17 'x') (-6) 0) = ([] : List Char)
        from by decide]
    rw [if_pos (by decide), show (0 : Int) - 9 = -9 from by decide]
    exact chunkTextGo_fix_neg9 f _

/-- C2 counterexample. With `overlap = 9 < 10 = chunk_size` on the text
`"ab." ++ "x"*17`, the very first iteration moves the cut point back to the
period and the next start position is `3 - 9 = -6 < 0`: the start is not
strictly increasing, and (following Python's negative-index semantics for
`rfind` and slicing) the loop never terminates at all. -/
theorem chunk_text_termination_counterexample :
    (9 : Int) < 10 ∧
    chunkIterEnd ("ab.".data ++ List.replicate 17 'x') 10 9 0 - 9 < 0 ∧
    ¬ chunkTerminates ("ab.".data ++ List.replicate 17 'x') 10 9 := by
  refine ⟨by decide, by decide, ?_⟩
  rintro ⟨fuel, hf⟩
  rw [chunk_text_ab_run fuel] at hf
  simp at hf

end ClaraVerse

namespace ClaraVerse

/-! ### The chunking run on a 2500-character text with no break points -/

/-- Searching with `lastIdxOf` finds nothing in a run of a different character. -/
theorem lastIdxOf_replicate {c a : Char} (h : c ≠ a) (n : Nat) :
    lastIdxOf c (List.replicate n a) = none := by
  induction n with
  | zero => rfl
  | succ n ih =>
    rw [List.replicate_succ]
    simp only [lastIdxOf, ih]
    simp [Ne.symm h]

/-- Python `rfind` over a uniform text without the needle reports `-1`. -/
theorem pyRfind_replicate {c a : Char} (h : c ≠ a) (n : Nat) (lo hi : Int) :
    pyRfind (List.replicate n a) c lo hi = -1 := by
  simp only [pyRfind, List.take_replicate, List.drop_replicate, lastIdxOf_replicate h]

/-- Stripping a run of a non-whitespace character is the identity. -/
theorem pyStrip_replicate (n : Nat) : pyStrip (List.replicate n 'a') = List.replicate n 'a' := by
  have h : ∀ m, List.dropWhile Char.isWhitespace (List.replicate m 'a') = List.replicate m 'a' := by
    intro m
    cases m with
    | zero => rfl
    | succ m =>
      rw [List.replicate_succ, List.dropWhile_cons]
      simp
  simp only [pyStrip, h, List.reverse_replicate]

/-- On the uniform 2500-character text the break-point search always fails,
so every cut lands at `start + chunk_size`. -/
theorem chunkIterEnd_repl2500 (s : Int) (hs : -801 ≤ s) :
    chunkIterEnd (List.replicate 2500 'a') 1000 200 s = s + 1000 := by
  simp only [chunkIterEnd, pyRfind_replicate (show '.' ≠ 'a' from by decide),
    pyRfind_replicate (show '\n' ≠ 'a' from by decide), max_self]
  split_ifs with h1 h2
  · omega
  · rfl
  · rfl

/-- The four window slices of the 2500-character uniform text. -/
theorem pySlice_repl2500 (s e : Int) (hs : 0 ≤ s) (hse : s ≤ e) :
    pySlice (List.replicate 2500 'a') s e =
      List.replicate (min e.toNat 2500 - s.toNat) 'a' := by
  have h1 : pyAdj (List.replicate 2500 'a').length e = min e.toNat 2500 := by
    simp only [pyAdj, List.length_replicate]
    rw [if_neg (by omega)]
  have h2 : pyAdj (List.replicate 2500 'a').length s = min s.toNat 2500 := by
    simp only [pyAdj, List.length_replicate]
    rw [if_neg (by omega)]
  simp only [pySlice, h1, h2, List.take_replicate, List.drop_replicate]
  congr 1
  omega

/-- The full `chunk_text` run on 2500 identical characters with the default
parameters `chunk_size = 1000`, `overlap = 200`: window starts are
`0, 800, 1600, 2400` and four non-empty chunks come back. -/
theorem chunk_text_repl2500_eq :
    chunk_text (List.replicate 2500 'a') 1000 200 2600 =
      some [List.replicate 1000 'a', List.replicate 1000 'a',
            List.replicate 900 'a', List.replicate 100 'a'] := by
  have hlen : ((List.replicate 2500 'a').length : Int) = 2500 := by
    rw [List.length_replicate]
    norm_num
  have hg : ∀ s : Int, s < 2500 → s < ((List.replicate 2500 'a').length : Int) := by
    intro s hs
    rw [hlen]
    exact hs
  have hng : ¬ (3200 : Int) < ((List.replicate 2500 'a').length : Int) := by
    rw [hlen]
    norm_num
  have hchunk : ∀ (s : Int) (k : Nat), 0 ≤ s → s ≤ 2400 →
      min (s + 1000).toNat 2500 - s.toNat = k →
      pyStrip (pySlice (List.replicate 2500 'a') s
          (chunkIterEnd (List.replicate 2500 'a') 1000 200 s)) = List.replicate k 'a' := by
    intro s k h0 h1 hk
    rw [chunkIterEnd_repl2500 s (by omega), pySlice_repl2500 s (s + 1000) h0 (by omega),
      pyStrip_replicate, hk]
  unfold chunk_text
  rw [chunkTextGo_succ _ _ _ _ _ _ (hg 0 (by norm_num))]
  rw [hchunk 0 1000 (by norm_num) (by norm_num) (by decide)]
  rw [chunkIterEnd_repl2500 0 (by norm_num)]
  rw [if_neg (by simp only [List.isEmpty_eq_true, List.replicate_eq_nil_iff]; norm_num),
    show (0 : Int) + 1000 - 200 = 800 from by norm_num]
  rw [chunkTextGo_succ _ _ _ _ _ _ (hg 800 (by norm_num))]
  rw [hchunk 800 1000 (by norm_num) (by norm_num) (by decide)]
  rw [chunkIterEnd_repl2500 800 (by norm_num)]
  rw [if_neg (by simp only [List.isEmpty_eq_true, List.replicate_eq_nil_iff]; norm_num),
    show (800 : Int) + 1000 - 200 = 1600 from by norm_num]
  rw [chunkTextGo_succ _ _ _ _ _ _ (hg 1600 (by norm_num))]
  rw [hchunk 1600 900 (by norm_num) (by norm_num) (by decide)]
  rw [chunkIterEnd_repl2500 1600 (by norm_num)]
  rw [if_neg (by simp only [List.isEmpty_eq_true, List.replicate_eq_nil_iff]; norm_num),
    show (1600 : Int) + 1000 - 200 = 2400 from by norm_num]
  rw [chunkTextGo_succ _ _ _ _ _ _ (hg 2400 (by norm_num))]
  rw [hchunk 2400 100 (by norm_num) (by norm_num) (by decide)]
  rw [chunkIterEnd_repl2500 2400 (by norm_num)]
  rw [if_neg (by simp only [List.isEmpty_eq_true, List.replicate_eq_nil_iff]; norm_num),
    show (2400 : Int) + 1000 - 200 = 3200 from by norm_num]
  rw [chunkTextGo_done _ _ _ _ _ _ hng]
  rfl

end ClaraVerse

namespace ClaraVerse

/-- C8 counterexample. On the 2500-character text `'a' * 2500` (no sentence
terminators, newlines or whitespace), `chunk_text` with `chunk_size = 1000`
and `overlap = 200` returns 4 chunks, not 3: the window starts are
`0, 800, 1600, 2400` and the start `2400 < 2500` forces a fourth
iteration. -/
theorem chunk_text_2500_counterexample :
    (chunk_text (List.replicate 2500 'a') 1000 200 2600).map List.length = some 4 ∧
    (4 : Nat) ≠ 3 := by
  constructor
  · rw [chunk_text_repl2500_eq]
    rfl
  · decide

/-- C8 (amended). For the 2500-character text `'a' * 2500`,
`chunk_text(text, 1000, 200)` returns exactly the four non-empty chunks
covering the windows `[0,1000)`, `[800,1800)`, `[1600,2500)`, `[2400,2500)`;
each pair of consecutive chunks shares its overlap context (the last 200
characters of a chunk re-appear as the first 200 of the next — 100 for the
final pair), and no chunk is empty. -/
theorem chunk_text_2500_amended :
    chunk_text (List.replicate 2500 'a') 1000 200 2600 =
      some [List.replicate 1000 'a', List.replicate 1000 'a',
            List.replicate 900 'a', List.replicate 100 'a'] ∧
    ((List.replicate 1000 'a').drop 800 = (List.replicate 1000 'a').take 200 ∧
     (List.replicate 1000 'a').drop 800 = (List.replicate 900 'a').take 200 ∧
     (List.replicate 900 'a').drop 800 = (List.replicate 100 'a').take 100) ∧
    (List.replicate 1000 'a' ≠ ([] : List Char) ∧
     List.replicate 900 'a' ≠ ([] : List Char) ∧
     List.replicate 100 'a' ≠ ([] : List Char)) := by
  refine ⟨chunk_text_repl2500_eq, ⟨?_, ?_, ?_⟩, ?_, ?_, ?_⟩
  · rw [List.drop_replicate, List.take_replicate]
    norm_num
  · rw [List.drop_replicate, List.take_replicate]
    norm_num
  · rw [List.drop_replicate, List.take_replicate]
    norm_num
  · simp only [ne_eq, List.replicate_eq_nil_iff]
    norm_num
  · simp only [ne_eq, List.replicate_eq_nil_iff]
    norm_num
  · simp only [ne_eq, List.replicate_eq_nil_iff]
    norm_num

end ClaraVerse

namespace ClaraVerse

/-! ## Authentication core (`auth/auth.py`, `routes/auth_routes.py`) -/

/-- The `type` claim of an issued JWT (`"access"` or `"refresh"`). -/
inductive TokType
  | access
  | refresh
deriving DecidableEq

/-- A bearer-token string.  `signed sub email exp ty` is the deterministic,
injective HS256 encoding by `jwt.encode` (with the fixed service secret) of
the payload `{"sub": sub, "email": email, "exp": exp, "type": ty}`;
`garbage s` is any string not produced by the signer, which can never carry
a valid signature. -/
inductive TokenStr
  | signed (sub : Nat) (email : String) (exp : Nat) (ty : TokType)
  | garbage (raw : String)
deriving DecidableEq

/-- An `HTTPException`: status code and detail string. -/
structure HTTPError where
  status : Nat
  detail : String
deriving DecidableEq

/-- The operation failed with a 401 Unauthorized response. -/
def failsUnauthenticated {α : Type} (r : Except HTTPError α) : Prop :=
  ∃ e, r = Except.error e ∧ e.status = 401

/-- Constant `ACCESS_TOKEN_EXPIRE_MINUTES = 7 * 24 * 60` (auth.py line 16), in seconds. -/
def accessTokenTTL : Nat := 7 * 24 * 60 * 60

/-- Constant `REFRESH_TOKEN_EXPIRE_DAYS = 30` (auth.py line 17), in seconds. -/
def refreshTokenTTL : Nat := 30 * 24 * 60 * 60

/-- Library `jose.jwt.decode`: succeeds on a string signed with the service secret
whose embedded expiry has not passed (jose raises `ExpiredSignatureError`
exactly when `exp < now`), and fails with `JWTError` on any other string. -/
def jwtDecode (now : Nat) : TokenStr → Option (Nat × String × Nat × TokType)
  | .signed sub email exp ty => if exp < now then none else some (sub, email, exp, ty)
  | .garbage _ => none

/-- A row of `auth.users` (db/models.py lines 11-27). -/
structure UserR where
  id : Nat
  email : String
  encrypted_password : String
deriving DecidableEq

/-- A row of `auth.sessions` (db/models.py lines 29-40). -/
structure SessionR where
  user_id : Nat
  token : TokenStr
  expires_at : Nat
deriving DecidableEq

/-- A row of `auth.refresh_tokens` (db/models.py lines 42-53). -/
structure RefreshR where
  user_id : Nat
  token : TokenStr
  expires_at : Nat
deriving DecidableEq

/-- The relational store backing the auth service.  `next_id` models the
source of fresh user ids (`uuid4`). -/
structure Store where
  users : List UserR
  sessions : List SessionR
  refresh_tokens : List RefreshR
  next_id : Nat
deriving DecidableEq

/-- The store with no rows. -/
def emptyStore : Store := ⟨[], [], [], 0⟩

/-- Modelled from the spec: `passlib`'s salted slow hash (bcrypt) is an
external library; its contract ("hashes password ... verification") is that
verification succeeds exactly for the hashed password.  The embedding uses
a deterministic injective tag. -/
def get_password_hash (password : String) : String :=
  "bcrypt$" ++ password

/-- Method `AuthService.verify_password` (auth.py lines 28-31), via the library
contract above. -/
def verify_password (plain hashed : String) : Bool :=
  hashed == get_password_hash plain

/-- Method `AuthService.create_access_token` (auth.py lines 38-49) at time `now`:
payload `{"sub": id, "email": email}` plus `exp` and `type: "access"`. -/
def create_access_token (uid : Nat) (email : String) (now : Nat) : TokenStr :=
  TokenStr.signed uid email (now + accessTokenTTL) TokType.access

/-- Method `AuthService.create_refresh_token` (auth.py lines 51-58). -/
def create_refresh_token (uid : Nat) (email : String) (now : Nat) : TokenStr :=
  TokenStr.signed uid email (now + refreshTokenTTL) TokType.refresh

/-- Method `AuthService.create_user` (auth.py lines 73-94): reject an existing
email with 400, otherwise hash the password and commit the new `User`
row (one commit, line 92). -/
def create_user (db : Store) (email password : String) :
    Except HTTPError (Store × UserR) :=
  match db.users.find? (fun u => u.email == email) with
  | some _ => Except.error ⟨400, "User already exists"⟩
  | none =>
    let user : UserR := ⟨db.next_id, email, get_password_hash password⟩
    Except.ok ({ db with users := db.users ++ [user], next_id := db.next_id + 1 }, user)

/-- Method `AuthService.authenticate_user` (auth.py lines 96-104): `None` both
when the email is unknown and when the hash check fails. -/
def authenticate_user (db : Store) (email password : String) : Option UserR :=
  match db.users.find? (fun u => u.email == email) with
  | none => none
  | some user =>
    if verify_password password user.encrypted_password then some user else none

/-- An `IntegrityError` raised by a violated unique constraint during a
commit; the routes surface it as a 500 response (auth_routes.py lines
46-50, 98-102; the signin route has no handler and FastAPI answers 500). -/
def integrityError : HTTPError := ⟨500, "IntegrityError"⟩

/-- Method `AuthService.create_session` (auth.py lines 106-150): issue the
access/refresh pair, insert both rows, and commit once (line 137).  The
`token` columns of `auth.sessions` and `auth.refresh_tokens` are
`unique=True` (db/models.py lines 35 and 48), so the commit raises
`IntegrityError` whenever an identical token string is already stored;
otherwise it returns the new store and the two token strings. -/
def create_session (db : Store) (user : UserR) (now : Nat) :
    Except HTTPError (Store × TokenStr × TokenStr) :=
  let access_token := create_access_token user.id user.email now
  let refresh_token := create_refresh_token user.id user.email now
  if db.sessions.any (fun s => s.token == access_token) ||
      db.refresh_tokens.any (fun row => row.token == refresh_token) then
    Except.error integrityError
  else
    Except.ok
      ({ db with
          sessions := db.sessions ++ [⟨user.id, access_token, now + accessTokenTTL⟩],
          refresh_tokens :=
            db.refresh_tokens ++ [⟨user.id, refresh_token, now + refreshTokenTTL⟩] },
       access_token, refresh_token)

/-- Method `AuthService.get_current_user` (auth.py lines 152-188): decode the
bearer token (401 on failure), require a `Session` row with that exact
token string and `expires_at > utcnow()` (else 401), then load the user by
the decoded id (404 when gone). -/
def get_current_user (db : Store) (token : TokenStr) (now : Nat) :
    Except HTTPError UserR :=
  match jwtDecode now token with
  | none => Except.error ⟨401, "Could not validate credentials"⟩
  | some (sub, _, _, _) =>
    match db.sessions.find? (fun s => decide (s.token = token ∧ now < s.expires_at)) with
    | none => Except.error ⟨401, "Session expired or invalid"⟩
    | some _ =>
      match db.users.find? (fun u => u.id == sub) with
      | none => Except.error ⟨404, "User not found"⟩
      | some user => Except.ok user

/-- Method `AuthService.refresh_access_token` (auth.py lines 190-228): decode
(401 on failure), require `type == "refresh"` (401), require a
`RefreshToken` row with that exact string and `expires_at > utcnow()`
(401), load the user (404), mark the consumed row deleted and create a new
session (single commit inside `create_session`).  SQLAlchemy's unit of work
flushes INSERTs before DELETEs inside that one commit, so the uniqueness
check runs against the store that still holds the consumed row; on success
the committed net state drops the consumed row and holds the fresh pair,
and on an `IntegrityError` the whole transaction is rolled back. -/
def refresh_access_token (db : Store) (rt : TokenStr) (now : Nat) :
    Except HTTPError (Store × TokenStr × TokenStr) :=
  match jwtDecode now rt with
  | none => Except.error ⟨401, "Could not validate credentials"⟩
  | some (sub, _, _, ty) =>
    if ty ≠ TokType.refresh then Except.error ⟨401, "Invalid token type"⟩
    else
      match db.refresh_tokens.find? (fun r => decide (r.token = rt ∧ now < r.expires_at)) with
      | none => Except.error ⟨401, "Invalid or expired refresh token"⟩
      | some _ =>
        match db.users.find? (fun u => u.id == sub) with
        | none => Except.error ⟨404, "User not found"⟩
        | some user =>
          match create_session db user now with
          | Except.error e => Except.error e
          | Except.ok (db2, access, refresh) =>
            Except.ok
              ({ db2 with refresh_tokens :=
                  db2.refresh_tokens.eraseP (fun r => decide (r.token = rt ∧ now < r.expires_at)) },
               access, refresh)

/-- Method `AuthService.logout` (auth.py lines 230-236): delete the `Session` row
with this exact token string, if any; otherwise do nothing. -/
def logout (db : Store) (token : TokenStr) : Store :=
  match db.sessions.find? (fun s => s.token == token) with
  | none => db
  | some _ => { db with sessions := db.sessions.eraseP (fun s => s.token == token) }

/-- Route `POST /api/auth/signup` (auth_routes.py lines 33-50): create the user
(first commit), then create the session (second commit). -/
def sign_up (db : Store) (email password : String) (now : Nat) :
    Except HTTPError (Store × TokenStr × TokenStr) :=
  match create_user db email password with
  | Except.error e => Except.error e
  | Except.ok (db1, user) => create_session db1 user now

/-- The sequence of committed (visible) store states during `sign_up` once
`create_user` has succeeded: `create_user` commits the bare `User` row
(auth.py line 92) before `create_session` commits the Session/RefreshToken
pair (line 137); if the second commit fails, the first remains durable. -/
def signupVisibleStates (db : Store) (email password : String) (now : Nat) :
    List Store :=
  match create_user db email password with
  | Except.error _ => []
  | Except.ok (db1, user) =>
    match create_session db1 user now with
    | Except.error _ => [db1]
    | Except.ok (db2, _, _) => [db1, db2]

/-- Route `POST /api/auth/signin` (auth_routes.py lines 52-67): one uniform 401
`"Invalid credentials"` whenever `authenticate_user` returns `None`. -/
def sign_in (db : Store) (email password : String) (now : Nat) :
    Except HTTPError (Store × TokenStr × TokenStr) :=
  match authenticate_user db email password with
  | none => Except.error ⟨401, "Invalid credentials"⟩
  | some user => create_session db user now

/-- Route `POST /api/auth/signout` (auth_routes.py lines 69-74): always returns
success. -/
def sign_out (db : Store) (token : TokenStr) : Except HTTPError Store :=
  Except.ok (logout db token)

end ClaraVerse

namespace ClaraVerse

/-! ### Helper lemmas for the authentication proofs -/

/-- Password verification round-trips: checking `p` against the stored hash
of `q` succeeds exactly when `q = p`. -/
theorem verify_password_hash_iff (p q : String) :
    verify_password p (get_password_hash q) = true ↔ q = p := by
  constructor
  · intro h
    have h1 : get_password_hash q = get_password_hash p := by
      simpa [verify_password, beq_iff_eq] using h
    have h2 : "bcrypt$".data ++ q.data = "bcrypt$".data ++ p.data := by
      have h3 := congrArg String.data h1
      simpa [get_password_hash, String.data_append] using h3
    exact String.ext (List.append_cancel_left h2)
  · intro h
    subst h
    simp [verify_password]

/-- Running `sign_up` on the empty store always succeeds, committing one user with
id 0 and one Session/RefreshToken pair. -/
theorem sign_up_empty_eq (e p : String) (t0 : Nat) :
    sign_up emptyStore e p t0 =
      Except.ok
        (⟨[⟨0, e, get_password_hash p⟩],
          [⟨0, create_access_token 0 e t0, t0 + accessTokenTTL⟩],
          [⟨0, create_refresh_token 0 e t0, t0 + refreshTokenTTL⟩], 1⟩,
         create_access_token 0 e t0, create_refresh_token 0 e t0) := rfl

/-- When neither freshly issued token string is already stored, the unique
constraints are satisfied and `create_session` commits the pair. -/
theorem create_session_ok (db : Store) (user : UserR) (now : Nat)
    (hcol : (db.sessions.any
        (fun s => s.token == create_access_token user.id user.email now) ||
      db.refresh_tokens.any
        (fun row => row.token == create_refresh_token user.id user.email now)) = false) :
    create_session db user now =
      Except.ok
        ({ db with
            sessions := db.sessions ++
              [⟨user.id, create_access_token user.id user.email now,
                now + accessTokenTTL⟩],
            refresh_tokens := db.refresh_tokens ++
              [⟨user.id, create_refresh_token user.id user.email now,
                now + refreshTokenTTL⟩] },
         create_access_token user.id user.email now,
         create_refresh_token user.id user.email now) := by
  simp only [create_session]
  rw [if_neg (by simp [hcol])]

end ClaraVerse

namespace ClaraVerse

/-- C7.  The two failing signin runs — unknown email, and known email with
failing password verification — return the *identical* `401 Invalid
credentials` response, so a caller cannot tell whether the email exists. -/
theorem signin_uniform_failure (s1 s2 : Store) (e1 e2 p1 p2 : String)
    (t1 t2 : Nat) (u : UserR)
    (h1 : s1.users.find? (fun v => v.email == e1) = none)
    (h2 : s2.users.find? (fun v => v.email == e2) = some u)
    (h3 : verify_password p2 u.encrypted_password = false) :
    sign_in s1 e1 p1 t1 = sign_in s2 e2 p2 t2 ∧
    sign_in s1 e1 p1 t1 = Except.error ⟨401, "Invalid credentials"⟩ := by
  have ha : authenticate_user s1 e1 p1 = none := by
    simp [authenticate_user, h1]
  have hb : authenticate_user s2 e2 p2 = none := by
    simp [authenticate_user, h2, h3]
  refine ⟨?_, ?_⟩
  · simp [sign_in, ha, hb]
  · simp [sign_in, ha]

/-- Witness for `signin_uniform_failure`: an empty store with the unknown
email `"x"`, and a one-user store where `"y"` exists but the password is
wrong. -/
theorem signin_uniform_failure_witness :
    sign_in emptyStore "x" "p" 0 =
        sign_in ⟨[⟨0, "y", "bcrypt$q"⟩], [], [], 1⟩ "y" "wrong" 5 ∧
    sign_in emptyStore "x" "p" 0 = Except.error ⟨401, "Invalid credentials"⟩ :=
  signin_uniform_failure emptyStore ⟨[⟨0, "y", "bcrypt$q"⟩], [], [], 1⟩
    "x" "y" "p" "wrong" 0 5 ⟨0, "y", "bcrypt$q"⟩ (by decide) (by decide) (by decide)

end ClaraVerse

namespace ClaraVerse

/-- C3 counterexample.  A successful signup performs *two* commits
(`create_user` line 92, then `create_session` line 137): its first visible
committed state holds the persisted `User` row with *no* Session row and
*no* RefreshToken row, contradicting operation-level atomicity. -/
theorem signup_two_commits_counterexample :
    (signupVisibleStates emptyStore "a@x.com" "pw" 0).head? =
      some ⟨[⟨0, "a@x.com", "bcrypt$pw"⟩], [], [], 1⟩ ∧
    ([⟨0, "a@x.com", "bcrypt$pw"⟩] : List UserR) ≠ [] ∧
    (⟨[⟨0, "a@x.com", "bcrypt$pw"⟩], [], [], 1⟩ : Store).sessions = [] ∧
    (⟨[⟨0, "a@x.com", "bcrypt$pw"⟩], [], [], 1⟩ : Store).refresh_tokens = [] := by
  refine ⟨rfl, ?_, rfl, rfl⟩
  decide

/-- C3 (amended).  `create_session` persists the Session row and its paired
RefreshToken row together in a single commit (and on failure persists
neither) — so signin, refresh and logout (which commit once) are atomic and
a Session row never appears without its paired RefreshToken row;
`sign_up`, however, commits twice: its first visible state `db1` carries
the new `User` row while the session pair only appears in the second
committed state, and when the second commit fails the bare `User` row
remains durable. -/
theorem auth_commit_structure (db : Store) (user : UserR) (now : Nat)
    (email password : String) :
    (∀ db2 a r, create_session db user now = Except.ok (db2, a, r) →
      db2.sessions = db.sessions ++ [⟨user.id, a, now + accessTokenTTL⟩] ∧
      db2.refresh_tokens = db.refresh_tokens ++ [⟨user.id, r, now + refreshTokenTTL⟩]) ∧
    (∀ db1 u1, create_user db email password = Except.ok (db1, u1) →
      (∀ db2 a r, create_session db1 u1 now = Except.ok (db2, a, r) →
        signupVisibleStates db email password now = [db1, db2]) ∧
      (∀ err, create_session db1 u1 now = Except.error err →
        signupVisibleStates db email password now = [db1]) ∧
      db1.sessions = db.sessions ∧
      db1.refresh_tokens = db.refresh_tokens ∧
      db1.users = db.users ++ [u1]) := by
  constructor
  · intro db2 a r hcs
    simp only [create_session] at hcs
    split at hcs
    · exact absurd hcs (by simp)
    · simp only [Except.ok.injEq, Prod.mk.injEq] at hcs
      obtain ⟨hdb2, ha, hr⟩ := hcs
      subst hdb2
      subst ha
      subst hr
      exact ⟨rfl, rfl⟩
  · intro db1 u1 hcu
    unfold create_user at hcu
    cases hfind : db.users.find? (fun u => u.email == email) with
    | some v =>
      rw [hfind] at hcu
      exact absurd hcu (by simp)
    | none =>
      rw [hfind] at hcu
      simp only [Except.ok.injEq, Prod.mk.injEq] at hcu
      obtain ⟨hdb1, hu1⟩ := hcu
      subst hdb1
      subst hu1
      have hstep : signupVisibleStates db email password now =
          (match create_session
              ⟨db.users ++ [⟨db.next_id, email, get_password_hash password⟩],
               db.sessions, db.refresh_tokens, db.next_id + 1⟩
              ⟨db.next_id, email, get_password_hash password⟩ now with
           | Except.error _ =>
              [⟨db.users ++ [⟨db.next_id, email, get_password_hash password⟩],
                db.sessions, db.refresh_tokens, db.next_id + 1⟩]
           | Except.ok (db2, _, _) =>
              [⟨db.users ++ [⟨db.next_id, email, get_password_hash password⟩],
                db.sessions, db.refresh_tokens, db.next_id + 1⟩, db2]) := by
        unfold signupVisibleStates create_user
        rw [hfind]
      refine ⟨?_, ?_, rfl, rfl, rfl⟩
      · intro db2 a r hcs
        rw [hstep, hcs]
      · intro err hcs
        rw [hstep, hcs]

/-- Witness for `auth_commit_structure` on the empty store. -/
theorem auth_commit_structure_witness :
    signupVisibleStates emptyStore "e" "p" 7 =
      [⟨[⟨0, "e", get_password_hash "p"⟩], [], [], 1⟩,
       ⟨[⟨0, "e", get_password_hash "p"⟩],
        [⟨0, create_access_token 0 "e" 7, 7 + accessTokenTTL⟩],
        [⟨0, create_refresh_token 0 "e" 7, 7 + refreshTokenTTL⟩], 1⟩] :=
  (((auth_commit_structure emptyStore ⟨0, "e", get_password_hash "p"⟩ 7 "e" "p").2
      ⟨[⟨0, "e", get_password_hash "p"⟩], [], [], 1⟩
      ⟨0, "e", get_password_hash "p"⟩ rfl).1
    ⟨[⟨0, "e", get_password_hash "p"⟩],
     [⟨0, create_access_token 0 "e" 7, 7 + accessTokenTTL⟩],
     [⟨0, create_refresh_token 0 "e" 7, 7 + refreshTokenTTL⟩], 1⟩
    (create_access_token 0 "e" 7) (create_refresh_token 0 "e" 7) rfl)

end ClaraVerse

namespace ClaraVerse

/-- C9.  `logout` is total (the route always answers success), deletes the
Session row matching the exact token string when one exists (no row with
that token survives, and the session count drops by exactly one), and is
idempotent: a second `logout` with the same token string is a no-op, as is
a `logout` with an unknown token.  The hypothesis that session token
strings are pairwise distinct is the `unique=True` constraint on
`auth.sessions.token` (db/models.py line 35). -/
theorem logout_idempotent (db : Store) (t : TokenStr)
    (hnd : (db.sessions.map SessionR.token).Nodup) :
    sign_out db t = Except.ok (logout db t) ∧
    (∀ s ∈ (logout db t).sessions, s.token ≠ t) ∧
    (∀ s ∈ db.sessions, s.token = t →
      (logout db t).sessions.length + 1 = db.sessions.length) ∧
    logout (logout db t) t = logout db t ∧
    ((∀ s ∈ db.sessions, s.token ≠ t) → logout db t = db) := by
  have hclean : ∀ s ∈ (logout db t).sessions, s.token ≠ t := by
    cases hf : db.sessions.find? (fun s => s.token == t) with
    | none =>
      have hdb : logout db t = db := by
        simp [logout, hf]
      rw [hdb]
      intro x hx
      have := List.find?_eq_none.mp hf x hx
      simpa [beq_iff_eq] using this
    | some s =>
      have hmem := List.mem_of_find?_eq_some hf
      have hps := List.find?_some hf
      have hlog : logout db t =
          { db with sessions := db.sessions.eraseP (fun s => s.token == t) } := by
        simp [logout, hf]
      obtain ⟨a, l1, l2, hl1, hpa, hsplit, herase⟩ :=
        List.exists_of_eraseP (p := fun s => s.token == t) hmem hps
      have htok : a.token = t := by
        simpa [beq_iff_eq] using hpa
      have hal2 : a.token ∉ l2.map SessionR.token := by
        rw [hsplit, List.map_append, List.map_cons] at hnd
        exact (List.nodup_cons.mp (List.nodup_append.mp hnd).2.1).1
      rw [hlog, herase]
      intro x hx
      rcases List.mem_append.mp hx with h | h
      · have := hl1 x h
        simpa [beq_iff_eq] using this
      · intro heq
        exact hal2 (htok ▸ heq ▸ List.mem_map_of_mem SessionR.token h)
  have hnone2 : (logout db t).sessions.find? (fun s => s.token == t) = none := by
    rw [List.find?_eq_none]
    intro x hx
    simpa [beq_iff_eq] using hclean x hx
  refine ⟨rfl, hclean, ?_, ?_, ?_⟩
  · intro s hs hst
    cases hf : db.sessions.find? (fun x => x.token == t) with
    | none =>
      have := List.find?_eq_none.mp hf s hs
      exact absurd (by simp [hst]) this
    | some row =>
      have hlog : logout db t =
          { db with sessions := db.sessions.eraseP (fun x => x.token == t) } := by
        simp [logout, hf]
      rw [hlog]
      have hlen := List.length_eraseP_of_mem (List.mem_of_find?_eq_some hf)
        (List.find?_some hf)
      have hpos := List.length_pos_of_mem hs
      show (db.sessions.eraseP (fun x => x.token == t)).length + 1 =
        db.sessions.length
      omega
  · have h2 : ∀ L : Store, L.sessions.find? (fun s => s.token == t) = none →
        logout L t = L := by
      intro L hL
      simp [logout, hL]
    exact h2 _ hnone2
  · intro h
    have hnone : db.sessions.find? (fun s => s.token == t) = none := by
      rw [List.find?_eq_none]
      intro x hx
      simpa [beq_iff_eq] using h x hx
    simp [logout, hnone]

/-- Witness for `logout_idempotent` on a one-session store whose single
session carries the logged-out token, so the deletion conjuncts fire. -/
theorem logout_idempotent_witness :
    sign_out ⟨[], [⟨0, TokenStr.garbage "tok", 10⟩], [], 0⟩ (TokenStr.garbage "tok") =
      Except.ok (logout ⟨[], [⟨0, TokenStr.garbage "tok", 10⟩], [], 0⟩
        (TokenStr.garbage "tok")) ∧
    (∀ s ∈ (logout ⟨[], [⟨0, TokenStr.garbage "tok", 10⟩], [], 0⟩
        (TokenStr.garbage "tok")).sessions, s.token ≠ TokenStr.garbage "tok") ∧
    (∀ s ∈ (⟨[], [⟨0, TokenStr.garbage "tok", 10⟩], [], 0⟩ : Store).sessions,
      s.token = TokenStr.garbage "tok" →
      (logout ⟨[], [⟨0, TokenStr.garbage "tok", 10⟩], [], 0⟩
          (TokenStr.garbage "tok")).sessions.length + 1 =
        (⟨[], [⟨0, TokenStr.garbage "tok", 10⟩], [], 0⟩ : Store).sessions.length) ∧
    logout (logout ⟨[], [⟨0, TokenStr.garbage "tok", 10⟩], [], 0⟩
        (TokenStr.garbage "tok")) (TokenStr.garbage "tok") =
      logout ⟨[], [⟨0, TokenStr.garbage "tok", 10⟩], [], 0⟩ (TokenStr.garbage "tok") ∧
    ((∀ s ∈ (⟨[], [⟨0, TokenStr.garbage "tok", 10⟩], [], 0⟩ : Store).sessions,
        s.token ≠ TokenStr.garbage "tok") →
      logout ⟨[], [⟨0, TokenStr.garbage "tok", 10⟩], [], 0⟩ (TokenStr.garbage "tok") =
        ⟨[], [⟨0, TokenStr.garbage "tok", 10⟩], [], 0⟩) :=
  logout_idempotent ⟨[], [⟨0, TokenStr.garbage "tok", 10⟩], [], 0⟩
    (TokenStr.garbage "tok") (by decide)

end ClaraVerse

namespace ClaraVerse

/-- C10.  `logout` touches only the one matching Session row: users,
refresh-token rows and every non-matching session survive unchanged — so
after logging out an access token, a refresh with the refresh token issued
alongside it still succeeds. -/
theorem logout_frame (db : Store) (t : TokenStr) (e p : String) (t0 t1 : Nat)
    (h01 : t0 < t1) (h1 : t1 < t0 + refreshTokenTTL) :
    (logout db t).users = db.users ∧
    (logout db t).refresh_tokens = db.refresh_tokens ∧
    (logout db t).next_id = db.next_id ∧
    (∀ s ∈ db.sessions, s.token ≠ t → s ∈ (logout db t).sessions) ∧
    (∀ s1 a1 r1, sign_up emptyStore e p t0 = Except.ok (s1, a1, r1) →
      (refresh_access_token (logout s1 a1) r1 t1).isOk = true) := by
  refine ⟨?_, ?_, ?_, ?_, ?_⟩
  · unfold logout
    cases db.sessions.find? (fun s => s.token == t) <;> rfl
  · unfold logout
    cases db.sessions.find? (fun s => s.token == t) <;> rfl
  · unfold logout
    cases db.sessions.find? (fun s => s.token == t) <;> rfl
  · intro s hs hst
    unfold logout
    cases hf : db.sessions.find? (fun s => s.token == t) with
    | none => exact hs
    | some a =>
      have : ¬ ((fun s => s.token == t) s = true) := by
        simpa [beq_iff_eq] using hst
      exact (List.mem_eraseP_of_neg (p := fun x => x.token == t) (a := s) this).mpr hs
  · intro s1 a1 r1 heq
    rw [sign_up_empty_eq] at heq
    simp only [Except.ok.injEq, Prod.mk.injEq] at heq
    obtain ⟨hs1, ha1, hr1⟩ := heq
    subst hs1
    subst ha1
    subst hr1
    have hlog : logout
        (⟨[⟨0, e, get_password_hash p⟩],
          [⟨0, create_access_token 0 e t0, t0 + accessTokenTTL⟩],
          [⟨0, create_refresh_token 0 e t0, t0 + refreshTokenTTL⟩], 1⟩ : Store)
        (create_access_token 0 e t0) =
        ⟨[⟨0, e, get_password_hash p⟩], [],
          [⟨0, create_refresh_token 0 e t0, t0 + refreshTokenTTL⟩], 1⟩ := by
      unfold logout
      simp
    rw [hlog]
    have hcs := create_session_ok
      (⟨[⟨0, e, get_password_hash p⟩], [],
        [⟨0, create_refresh_token 0 e t0, t0 + refreshTokenTTL⟩], 1⟩ : Store)
      ⟨0, e, get_password_hash p⟩ t1
      (by simp [create_access_token, create_refresh_token]; omega)
    have href : refresh_access_token
        (⟨[⟨0, e, get_password_hash p⟩], [],
          [⟨0, create_refresh_token 0 e t0, t0 + refreshTokenTTL⟩], 1⟩ : Store)
        (create_refresh_token 0 e t0) t1 =
        (match create_session
            (⟨[⟨0, e, get_password_hash p⟩], [],
              [⟨0, create_refresh_token 0 e t0, t0 + refreshTokenTTL⟩], 1⟩ : Store)
            ⟨0, e, get_password_hash p⟩ t1 with
         | Except.error err => Except.error err
         | Except.ok (db2, access, refresh) =>
           Except.ok
             ({ db2 with refresh_tokens := db2.refresh_tokens.eraseP (fun r => decide (r.token = create_refresh_token 0 e t0 ∧ t1 < r.expires_at)) },
              access, refresh)) := by
      unfold refresh_access_token
      simp only [create_refresh_token, jwtDecode]
      rw [if_neg (by omega)]
      simp only [ne_eq, reduceCtorEq, not_false_eq_true, if_neg]
      rw [List.find?_cons_of_pos _ (by simp [h1])]
      rw [List.find?_cons_of_pos _ (by simp)]
      rfl
    rw [href, hcs]
    rfl

end ClaraVerse

namespace ClaraVerse

/-- Witness for `logout_frame`: after signup at time 0 and logout of the
access token, refreshing with the paired refresh token at time 1 still
succeeds. -/
theorem logout_frame_witness :
    (refresh_access_token
        (logout (⟨[⟨0, "e", get_password_hash "p"⟩],
            [⟨0, create_access_token 0 "e" 0, 0 + accessTokenTTL⟩],
            [⟨0, create_refresh_token 0 "e" 0, 0 + refreshTokenTTL⟩], 1⟩ : Store)
          (create_access_token 0 "e" 0))
        (create_refresh_token 0 "e" 0) 1).isOk = true :=
  (logout_frame emptyStore (TokenStr.garbage "z") "e" "p" 0 1 (by decide)
      (by decide)).2.2.2.2
    ⟨[⟨0, "e", get_password_hash "p"⟩],
     [⟨0, create_access_token 0 "e" 0, 0 + accessTokenTTL⟩],
     [⟨0, create_refresh_token 0 "e" 0, 0 + refreshTokenTTL⟩], 1⟩
    (create_access_token 0 "e" 0) (create_refresh_token 0 "e" 0)
    (sign_up_empty_eq "e" "p" 0)

/-- C5.  `get_current_user` (validate) fails 401 when the bearer token does
not decode — garbage, or cryptographically well-formed but past its
embedded ttl — or when no Session row with that exact string and
`expires_at > now` exists; fails 404 when the decoded user id matches no
user; otherwise returns that user. -/
theorem validate_cases (db : Store) (t : TokenStr) (now : Nat) :
    (∀ raw, t = TokenStr.garbage raw →
      failsUnauthenticated (get_current_user db t now)) ∧
    (∀ sub email exp ty, t = TokenStr.signed sub email exp ty → exp < now →
      failsUnauthenticated (get_current_user db t now)) ∧
    ((¬ ∃ s ∈ db.sessions, s.token = t ∧ now < s.expires_at) →
      failsUnauthenticated (get_current_user db t now)) ∧
    (∀ sub email exp ty, t = TokenStr.signed sub email exp ty → ¬ exp < now →
      (∃ s ∈ db.sessions, s.token = t ∧ now < s.expires_at) →
      ((∀ u ∈ db.users, u.id ≠ sub) →
        get_current_user db t now = Except.error ⟨404, "User not found"⟩) ∧
      (∀ u, db.users.find? (fun v => v.id == sub) = some u →
        get_current_user db t now = Except.ok u)) := by
  refine ⟨?_, ?_, ?_, ?_⟩
  · intro raw hraw
    subst hraw
    exact ⟨⟨401, "Could not validate credentials"⟩, rfl, rfl⟩
  · intro sub email exp ty hsig hexp
    subst hsig
    unfold get_current_user
    simp only [jwtDecode, if_pos hexp]
    exact ⟨⟨401, "Could not validate credentials"⟩, rfl, rfl⟩
  · intro hno
    have hnone : db.sessions.find?
        (fun s => decide (s.token = t ∧ now < s.expires_at)) = none := by
      rw [List.find?_eq_none]
      intro x hx
      simp only [decide_eq_true_eq]
      intro hc
      exact hno ⟨x, hx, hc⟩
    unfold get_current_user
    cases hd : jwtDecode now t with
    | none => exact ⟨⟨401, "Could not validate credentials"⟩, rfl, rfl⟩
    | some payload =>
      obtain ⟨sub, email, exp, ty⟩ := payload
      rw [hnone]
      exact ⟨⟨401, "Session expired or invalid"⟩, rfl, rfl⟩
  · intro sub email exp ty hsig hexp hsess
    subst hsig
    have hsome : (db.sessions.find?
        (fun s => decide (s.token = TokenStr.signed sub email exp ty ∧
          now < s.expires_at))).isSome := by
      rw [List.find?_isSome]
      obtain ⟨s, hs, hc⟩ := hsess
      exact ⟨s, hs, by simpa using hc⟩
    obtain ⟨srow, hsrow⟩ := Option.isSome_iff_exists.mp hsome
    constructor
    · intro hnouser
      have hunone : db.users.find? (fun v => v.id == sub) = none := by
        rw [List.find?_eq_none]
        intro x hx
        simpa [beq_iff_eq] using hnouser x hx
      unfold get_current_user
      simp only [jwtDecode, if_neg hexp]
      rw [hsrow, hunone]
    · intro u hu
      unfold get_current_user
      simp only [jwtDecode, if_neg hexp]
      rw [hsrow, hu]

/-- Witness for `validate_cases`: a live session row and an existing user
make validate return that user; garbage fails 401. -/
theorem validate_cases_witness :
    get_current_user
        ⟨[⟨7, "e", "h"⟩], [⟨7, TokenStr.signed 7 "e" 100 TokType.access, 100⟩], [], 8⟩
        (TokenStr.signed 7 "e" 100 TokType.access) 5 = Except.ok ⟨7, "e", "h"⟩ ∧
    failsUnauthenticated (get_current_user
        ⟨[⟨7, "e", "h"⟩], [⟨7, TokenStr.signed 7 "e" 100 TokType.access, 100⟩], [], 8⟩
        (TokenStr.garbage "junk") 5) :=
  ⟨((validate_cases
        ⟨[⟨7, "e", "h"⟩], [⟨7, TokenStr.signed 7 "e" 100 TokType.access, 100⟩], [], 8⟩
        (TokenStr.signed 7 "e" 100 TokType.access) 5).2.2.2
      7 "e" 100 TokType.access rfl (by decide) (by decide)).2 ⟨7, "e", "h"⟩ (by decide),
   (validate_cases
        ⟨[⟨7, "e", "h"⟩], [⟨7, TokenStr.signed 7 "e" 100 TokType.access, 100⟩], [], 8⟩
        (TokenStr.garbage "junk") 5).1 "junk" rfl⟩

end ClaraVerse

namespace ClaraVerse

/-- C6.  After a successful signup, a subsequent signin with the same
password — at a strictly later timestamp, so the freshly issued token
strings differ from the signup pair and the unique token constraints are
satisfied — succeeds (hashing round-trips through verification), and signin
with any different password fails with the uniform 401 `Invalid
credentials`. -/
theorem signup_signin_roundtrip (e p wp : String) (t0 t1 t2 : Nat)
    (s1 : Store) (a r : TokenStr)
    (hw : wp ≠ p) (h01 : t0 < t1)
    (hs : sign_up emptyStore e p t0 = Except.ok (s1, a, r)) :
    (∃ out, sign_in s1 e p t1 = Except.ok out) ∧
    sign_in s1 e wp t2 = Except.error ⟨401, "Invalid credentials"⟩ := by
  rw [sign_up_empty_eq] at hs
  simp only [Except.ok.injEq, Prod.mk.injEq] at hs
  obtain ⟨hs1, ha, hr⟩ := hs
  subst hs1
  subst ha
  subst hr
  have hfind1 :
      (⟨[⟨0, e, get_password_hash p⟩],
        [⟨0, create_access_token 0 e t0, t0 + accessTokenTTL⟩],
        [⟨0, create_refresh_token 0 e t0, t0 + refreshTokenTTL⟩], 1⟩ : Store).users.find?
        (fun u => u.email == e) = some ⟨0, e, get_password_hash p⟩ :=
    List.find?_cons_of_pos _ (by simp)
  constructor
  · have hv := (verify_password_hash_iff p p).mpr rfl
    have hauth : authenticate_user
        ⟨[⟨0, e, get_password_hash p⟩],
         [⟨0, create_access_token 0 e t0, t0 + accessTokenTTL⟩],
         [⟨0, create_refresh_token 0 e t0, t0 + refreshTokenTTL⟩], 1⟩ e p =
        some ⟨0, e, get_password_hash p⟩ := by
      unfold authenticate_user
      rw [hfind1]
      simp [hv]
    have hcs := create_session_ok
      (⟨[⟨0, e, get_password_hash p⟩],
        [⟨0, create_access_token 0 e t0, t0 + accessTokenTTL⟩],
        [⟨0, create_refresh_token 0 e t0, t0 + refreshTokenTTL⟩], 1⟩ : Store)
      ⟨0, e, get_password_hash p⟩ t1
      (by simp [create_access_token, create_refresh_token]; omega)
    exact ⟨_, by unfold sign_in; rw [hauth]; exact hcs⟩
  · have hvf : verify_password wp (get_password_hash p) = false := by
      by_cases hv2 : verify_password wp (get_password_hash p) = true
      · exact absurd ((verify_password_hash_iff wp p).mp hv2).symm hw
      · simpa using hv2
    have hauth2 : authenticate_user
        ⟨[⟨0, e, get_password_hash p⟩],
         [⟨0, create_access_token 0 e t0, t0 + accessTokenTTL⟩],
         [⟨0, create_refresh_token 0 e t0, t0 + refreshTokenTTL⟩], 1⟩ e wp = none := by
      unfold authenticate_user
      rw [hfind1]
      simp [hvf]
    unfold sign_in
    rw [hauth2]

/-- Witness for `signup_signin_roundtrip` after a signup on the empty
store at time 0, with the signin at time 1. -/
theorem signup_signin_roundtrip_witness :
    (∃ out, sign_in (⟨[⟨0, "e", get_password_hash "p"⟩],
        [⟨0, create_access_token 0 "e" 0, 0 + accessTokenTTL⟩],
        [⟨0, create_refresh_token 0 "e" 0, 0 + refreshTokenTTL⟩], 1⟩ : Store)
      "e" "p" 1 = Except.ok out) ∧
    sign_in (⟨[⟨0, "e", get_password_hash "p"⟩],
        [⟨0, create_access_token 0 "e" 0, 0 + accessTokenTTL⟩],
        [⟨0, create_refresh_token 0 "e" 0, 0 + refreshTokenTTL⟩], 1⟩ : Store)
      "e" "w" 2 = Except.error ⟨401, "Invalid credentials"⟩ :=
  signup_signin_roundtrip "e" "p" "w" 0 1 2
    ⟨[⟨0, "e", get_password_hash "p"⟩],
     [⟨0, create_access_token 0 "e" 0, 0 + accessTokenTTL⟩],
     [⟨0, create_refresh_token 0 "e" 0, 0 + refreshTokenTTL⟩], 1⟩
    (create_access_token 0 "e" 0) (create_refresh_token 0 "e" 0)
    (by decide) (by decide) (sign_up_empty_eq "e" "p" 0)

end ClaraVerse

namespace ClaraVerse

/-- The rotation contract for a refresh token issued by a signup on the
empty store at time `t0`, refreshed at `t1` and replayed at `t2`: the first
refresh succeeds, deletes the consumed `RefreshToken` row and stores a
fresh pair (with a *different* refresh string), and the replay fails with a
401 response. -/
def RefreshRotates (e p : String) (t0 t1 t2 : Nat) : Prop :=
  ∃ s2 a2 r2,
    sign_up emptyStore e p t0 =
      Except.ok
        (⟨[⟨0, e, get_password_hash p⟩],
          [⟨0, create_access_token 0 e t0, t0 + accessTokenTTL⟩],
          [⟨0, create_refresh_token 0 e t0, t0 + refreshTokenTTL⟩], 1⟩,
         create_access_token 0 e t0, create_refresh_token 0 e t0) ∧
    refresh_access_token
        ⟨[⟨0, e, get_password_hash p⟩],
         [⟨0, create_access_token 0 e t0, t0 + accessTokenTTL⟩],
         [⟨0, create_refresh_token 0 e t0, t0 + refreshTokenTTL⟩], 1⟩
        (create_refresh_token 0 e t0) t1 = Except.ok (s2, a2, r2) ∧
    s2.refresh_tokens = [⟨0, r2, t1 + refreshTokenTTL⟩] ∧
    r2 ≠ create_refresh_token 0 e t0 ∧
    failsUnauthenticated (refresh_access_token s2 (create_refresh_token 0 e t0) t2)

/-- C1 (amended).  Provided the refresh happens at a strictly later
timestamp than issuance (`t0 < t1` — so the deterministically re-encoded
JWTs differ from the stored ones and the unique token constraints are
satisfied) and before expiry, the first refresh succeeds and rotates, and
any replay of the consumed string fails 401.  (At `t1 = t0` the re-issued
strings are byte-identical to the stored rows and the commit instead fails
with an `IntegrityError` 500 — see the counterexample.) -/
theorem refresh_single_use (e p : String) (t0 t1 t2 : Nat)
    (h01 : t0 < t1) (h1 : t1 < t0 + refreshTokenTTL) :
    RefreshRotates e p t0 t1 t2 := by
  refine ⟨⟨[⟨0, e, get_password_hash p⟩],
      [⟨0, create_access_token 0 e t0, t0 + accessTokenTTL⟩,
       ⟨0, create_access_token 0 e t1, t1 + accessTokenTTL⟩],
      [⟨0, create_refresh_token 0 e t1, t1 + refreshTokenTTL⟩], 1⟩,
    create_access_token 0 e t1, create_refresh_token 0 e t1,
    sign_up_empty_eq e p t0, ?_, rfl, ?_, ?_⟩
  · simp only [create_access_token, create_refresh_token]
    have hcs := create_session_ok
      (⟨[⟨0, e, get_password_hash p⟩],
        [⟨0, TokenStr.signed 0 e (t0 + accessTokenTTL) TokType.access,
          t0 + accessTokenTTL⟩],
        [⟨0, TokenStr.signed 0 e (t0 + refreshTokenTTL) TokType.refresh,
          t0 + refreshTokenTTL⟩], 1⟩ : Store)
      ⟨0, e, get_password_hash p⟩ t1
      (by simp [create_access_token, create_refresh_token]; omega)
    have href : refresh_access_token
        (⟨[⟨0, e, get_password_hash p⟩],
          [⟨0, TokenStr.signed 0 e (t0 + accessTokenTTL) TokType.access,
            t0 + accessTokenTTL⟩],
          [⟨0, TokenStr.signed 0 e (t0 + refreshTokenTTL) TokType.refresh,
            t0 + refreshTokenTTL⟩], 1⟩ : Store)
        (TokenStr.signed 0 e (t0 + refreshTokenTTL) TokType.refresh) t1 =
        (match create_session
            (⟨[⟨0, e, get_password_hash p⟩],
              [⟨0, TokenStr.signed 0 e (t0 + accessTokenTTL) TokType.access,
                t0 + accessTokenTTL⟩],
              [⟨0, TokenStr.signed 0 e (t0 + refreshTokenTTL) TokType.refresh,
                t0 + refreshTokenTTL⟩], 1⟩ : Store)
            ⟨0, e, get_password_hash p⟩ t1 with
         | Except.error err => Except.error err
         | Except.ok (db2, access, refresh) =>
           Except.ok
             ({ db2 with refresh_tokens := db2.refresh_tokens.eraseP (fun r => decide (r.token = TokenStr.signed 0 e (t0 + refreshTokenTTL) TokType.refresh ∧ t1 < r.expires_at)) },
              access, refresh)) := by
      unfold refresh_access_token
      simp only [jwtDecode]
      rw [if_neg (by omega)]
      simp only [ne_eq, reduceCtorEq, not_false_eq_true, if_neg]
      rw [List.find?_cons_of_pos _ (by simp [h1])]
      rw [List.find?_cons_of_pos _ (by simp)]
      rfl
    rw [href, hcs]
    simp only [List.singleton_append]
    rw [List.eraseP_cons_of_pos (by simp [h1])]
    rfl
  · intro hcontra
    simp only [create_refresh_token, TokenStr.signed.injEq] at hcontra
    omega
  · by_cases hd : t0 + refreshTokenTTL < t2
    · unfold refresh_access_token
      simp only [create_refresh_token, jwtDecode]
      rw [if_pos hd]
      exact ⟨⟨401, "Could not validate credentials"⟩, rfl, rfl⟩
    · unfold refresh_access_token
      simp only [create_refresh_token, jwtDecode]
      rw [if_neg hd]
      simp only [ne_eq, reduceCtorEq, not_false_eq_true, if_neg]
      rw [List.find?_cons_of_neg _ (by
        simp only [decide_eq_true_eq, TokenStr.signed.injEq, not_and]
        intro hinj
        omega)]
      exact ⟨⟨401, "Invalid or expired refresh token"⟩, rfl, rfl⟩

/-- Witness for `refresh_single_use`. -/
theorem refresh_single_use_witness :
    0 < 1 ∧ 1 < 0 + refreshTokenTTL ∧ RefreshRotates "a" "b" 0 1 5 :=
  ⟨by decide, by decide, refresh_single_use "a" "b" 0 1 5 (by decide) (by decide)⟩

/-- C1 counterexample.  When the refresh lands on the same timestamp as the
original issuance (`t1 = t0 = 0`, possible because JWT `exp` has one-second
granularity), `jwt.encode` deterministically re-issues byte-identical token
strings, and the INSERTs of the fresh Session/RefreshToken pair — flushed
before the DELETE of the consumed row — collide with the still-present
signup rows under the `unique=True` token constraints: the very first
refresh with the freshly issued refresh token fails with an
`IntegrityError` 500 instead of succeeding and rotating as the claim
states. -/
theorem refresh_replay_counterexample :
    sign_up emptyStore "e" "p" 0 =
      Except.ok
        (⟨[⟨0, "e", get_password_hash "p"⟩],
          [⟨0, create_access_token 0 "e" 0, 0 + accessTokenTTL⟩],
          [⟨0, create_refresh_token 0 "e" 0, 0 + refreshTokenTTL⟩], 1⟩,
         create_access_token 0 "e" 0, create_refresh_token 0 "e" 0) ∧
    refresh_access_token
        ⟨[⟨0, "e", get_password_hash "p"⟩],
         [⟨0, create_access_token 0 "e" 0, 0 + accessTokenTTL⟩],
         [⟨0, create_refresh_token 0 "e" 0, 0 + refreshTokenTTL⟩], 1⟩
        (create_refresh_token 0 "e" 0) 0 = Except.error integrityError :=
  ⟨sign_up_empty_eq "e" "p" 0, rfl⟩

end ClaraVerse

namespace ClaraVerse

/-! ## Similarity search (`vector_routes.py`, `search_documents`,
lines 173-216) -/

/-- A row of `vectors.embeddings` (db/models.py lines 90-104). -/
structure EmbRow where
  id : Nat
  content : String
  user_id : Option Nat
  embedding : List ℚ
deriving DecidableEq

/-- One entry of the `/api/vectors/search` response (lines 207-214). -/
structure SearchRow where
  id : Nat
  content : String
  distance : ℚ
deriving DecidableEq

/-- Modelled from the spec: pgvector's `<=>` operator is an external
storage-engine primitive; per the spec's glossary ("Cosine distance:
`1 − cosine similarity`") it reports one minus the cosine similarity.  The
similarity function itself stays an abstract parameter. -/
def cosineDistOp (sim : List ℚ → List ℚ → ℚ) (a b : List ℚ) : ℚ :=
  1 - sim a b

/-- The `similarity` column of the SQL query (line 186):
`1 - (embedding <=> :embedding)`. -/
def rowSimilarity (sim : List ℚ → List ℚ → ℚ) (q : List ℚ) (r : EmbRow) : ℚ :=
  1 - cosineDistOp sim r.embedding q

/-- The `WHERE` clause (lines 188 and 196-198): `similarity > threshold`,
plus `user_id = :user_id` when a user is authenticated. -/
def searchPred (sim : List ℚ → List ℚ → ℚ) (q : List ℚ) (threshold : ℚ)
    (owner : Option Nat) (r : EmbRow) : Bool :=
  decide (rowSimilarity sim q r > threshold) &&
    match owner with
    | some uid => decide (r.user_id = some uid)
    | none => true

/-- Route `POST /api/vectors/search` (lines 173-216), as a relation between
the request and a possible response.  The route builds
`SELECT ... WHERE similarity > :threshold [AND user_id = :user_id]
ORDER BY similarity DESC LIMIT :limit` and returns the rows Postgres
produces, reporting `distance = 1 - similarity` for each.  SQL `ORDER BY`
fixes only the similarity ordering — the relative order of rows with equal
similarity is unspecified — so the query is modelled nondeterministically:
`out` is a possible response iff some permutation `ranked` of the
qualifying rows is descending in similarity and `out` is its `LIMIT`
prefix formatted as response entries. -/
def search_documents (sim : List ℚ → List ℚ → ℚ) (q : List ℚ)
    (rows : List EmbRow) (threshold : ℚ) (lim : Nat) (owner : Option Nat)
    (out : List SearchRow) : Prop :=
  ∃ ranked : List EmbRow,
    List.Perm ranked (rows.filter (searchPred sim q threshold owner)) ∧
    List.Pairwise
      (fun a b => rowSimilarity sim q b ≤ rowSimilarity sim q a) ranked ∧
    out = (ranked.take lim).map
      (fun r => ⟨r.id, r.content, 1 - rowSimilarity sim q r⟩)

end ClaraVerse

namespace ClaraVerse

/-- C4.  Every possible response of `search_documents` has at most `limit`
rows; they are ordered by ascending distance (descending similarity); every
returned row comes from a candidate whose similarity strictly exceeds the
threshold (and whose owner matches the filter when one is present); and
each reported distance is `1 − cosine similarity` of that candidate.  The
relative order of rows with equal similarity is not fixed: the `ORDER BY
similarity DESC` gives Postgres no tie-break rule, so any descending
arrangement is a possible response. -/
theorem search_documents_spec (sim : List ℚ → List ℚ → ℚ) (q : List ℚ)
    (rows : List EmbRow) (threshold : ℚ) (lim : Nat) (owner : Option Nat)
    (out : List SearchRow)
    (hout : search_documents sim q rows threshold lim owner out) :
    out.length ≤ lim ∧
    List.Chain' (fun a b : SearchRow => a.distance ≤ b.distance) out ∧
    (∀ res ∈ out,
      ∃ c ∈ rows, res.id = c.id ∧ res.content = c.content ∧
        res.distance = cosineDistOp sim c.embedding q ∧
        res.distance = 1 - sim c.embedding q ∧
        1 - res.distance > threshold ∧
        (∀ uid, owner = some uid → c.user_id = some uid)) := by
  obtain ⟨ranked, hperm, hsort, hrep⟩ := hout
  subst hrep
  refine ⟨?_, ?_, ?_⟩
  · rw [List.length_map]
    exact List.length_take_le lim _
  · have htake := List.Pairwise.sublist (List.take_sublist lim _) hsort
    apply List.Pairwise.chain'
    rw [List.pairwise_map]
    exact htake.imp (fun hab => sub_le_sub_left hab 1)
  · intro res hres
    obtain ⟨x, hx, hxres⟩ := List.mem_map.mp hres
    have hx1 := List.mem_of_mem_take hx
    have hx2 : x ∈ rows.filter (searchPred sim q threshold owner) :=
      hperm.mem_iff.mp hx1
    obtain ⟨hxrows, hpred⟩ := List.mem_filter.mp hx2
    unfold searchPred at hpred
    rw [Bool.and_eq_true] at hpred
    obtain ⟨hth, hown⟩ := hpred
    have hth' : rowSimilarity sim q x > threshold := of_decide_eq_true hth
    subst hxres
    refine ⟨x, hxrows, rfl, rfl, ?_, ?_, ?_, ?_⟩
    · simp [rowSimilarity, sub_sub_cancel]
    · simp [rowSimilarity, cosineDistOp, sub_sub_cancel]
    · show 1 - (1 - rowSimilarity sim q x) > threshold
      rw [sub_sub_cancel]
      exact hth'
    · intro uid houid
      subst houid
      exact of_decide_eq_true hown

/-- Witness for `search_documents_spec`: the spec's scenario — similarities
0.92 and 0.81 against threshold 0.8 with limit 5 — admits the response
listing both rows in descending-similarity order, and that response
satisfies the specification's bounds. -/
theorem search_documents_spec_witness :
    search_documents (fun a _ => if a = [1] then (92 : ℚ)/100 else (81 : ℚ)/100)
      [0] [⟨1, "c1", none, [1]⟩, ⟨2, "c2", none, [2]⟩] (8/10) 5 none
      [⟨1, "c1", 8/100⟩, ⟨2, "c2", 19/100⟩] ∧
    ([⟨1, "c1", (8 : ℚ)/100⟩, ⟨2, "c2", 19/100⟩] : List SearchRow).length ≤ 5 ∧
    List.Chain' (fun a b : SearchRow => a.distance ≤ b.distance)
      ([⟨1, "c1", 8/100⟩, ⟨2, "c2", 19/100⟩] : List SearchRow) ∧
    (∀ res ∈ ([⟨1, "c1", (8 : ℚ)/100⟩, ⟨2, "c2", 19/100⟩] : List SearchRow),
      ∃ c ∈ [(⟨1, "c1", none, [1]⟩ : EmbRow), ⟨2, "c2", none, [2]⟩],
        res.id = c.id ∧ res.content = c.content ∧
        res.distance = cosineDistOp
          (fun a _ => if a = [1] then (92 : ℚ)/100 else (81 : ℚ)/100)
          c.embedding [0] ∧
        res.distance =
          1 - (fun a _ => if a = [1] then (92 : ℚ)/100 else (81 : ℚ)/100)
            c.embedding [0] ∧
        1 - res.distance > (8 : ℚ)/10 ∧
        (∀ uid : Nat, (none : Option Nat) = some uid → c.user_id = some uid)) :=
  have hout : search_documents
      (fun a _ => if a = [1] then (92 : ℚ)/100 else (81 : ℚ)/100)
      [0] [⟨1, "c1", none, [1]⟩, ⟨2, "c2", none, [2]⟩] (8/10) 5 none
      [⟨1, "c1", 8/100⟩, ⟨2, "c2", 19/100⟩] :=
    ⟨[⟨1, "c1", none, [1]⟩, ⟨2, "c2", none, [2]⟩],
     by
      rw [show ([⟨1, "c1", none, [1]⟩, ⟨2, "c2", none, [2]⟩] : List EmbRow).filter
            (searchPred (fun a _ => if a = [1] then (92 : ℚ)/100 else (81 : ℚ)/100)
              [0] (8/10) none) =
          [⟨1, "c1", none, [1]⟩, ⟨2, "c2", none, [2]⟩] from by
        norm_num [searchPred, rowSimilarity, cosineDistOp, List.filter]],
     by norm_num [rowSimilarity, cosineDistOp],
     by norm_num [rowSimilarity, cosineDistOp]⟩
  ⟨hout, search_documents_spec
    (fun a _ => if a = [1] then (92 : ℚ)/100 else (81 : ℚ)/100)
    [0] [⟨1, "c1", none, [1]⟩, ⟨2, "c2", none, [2]⟩] (8/10) 5 none
    [⟨1, "c1", 8/100⟩, ⟨2, "c2", 19/100⟩] hout⟩

/-- Counterexample for the tie-break part of C4: with a similarity function
that rates every row 1 against threshold 0, both input orders of the two
qualifying rows are possible responses of the query — SQL gives no
stability guarantee for equal similarities — so "ties broken by stable
input order" is not a property of the program. -/
theorem search_tie_order_counterexample :
    search_documents (fun _ _ => (1 : ℚ)) []
      [⟨1, "a", none, []⟩, ⟨2, "b", none, []⟩] 0 5 none
      [⟨1, "a", 0⟩, ⟨2, "b", 0⟩] ∧
    search_documents (fun _ _ => (1 : ℚ)) []
      [⟨1, "a", none, []⟩, ⟨2, "b", none, []⟩] 0 5 none
      [⟨2, "b", 0⟩, ⟨1, "a", 0⟩] ∧
    ([⟨1, "a", 0⟩, ⟨2, "b", 0⟩] : List SearchRow) ≠
      [⟨2, "b", 0⟩, ⟨1, "a", 0⟩] := by
  have hfilt : ([⟨1, "a", none, []⟩, ⟨2, "b", none, []⟩] : List EmbRow).filter
      (searchPred (fun _ _ => (1 : ℚ)) [] 0 none) =
      [⟨1, "a", none, []⟩, ⟨2, "b", none, []⟩] := by
    norm_num [searchPred, rowSimilarity, cosineDistOp, List.filter]
  refine ⟨?_, ?_, ?_⟩
  · exact ⟨[⟨1, "a", none, []⟩, ⟨2, "b", none, []⟩],
      by rw [hfilt],
      by norm_num [rowSimilarity, cosineDistOp],
      by norm_num [rowSimilarity, cosineDistOp]⟩
  · exact ⟨[⟨2, "b", none, []⟩, ⟨1, "a", none, []⟩],
      by
        rw [hfilt]
        exact List.Perm.swap _ _ _,
      by norm_num [rowSimilarity, cosineDistOp],
      by norm_num [rowSimilarity, cosineDistOp]⟩
  · simp

end ClaraVerse
